import Mathlib

/-!
Verification of the vehicle-dynamics core of the
"Automotive technology: Effect of pressure on steering response" repository.

The repository's `src/sim.js` contains the `VehicleSim` integrator (in two
near-identical variants: the primary one, and a second "corrected, stable"
variant later in the file), `src/ui.js` contains the parameter controls, and
`src/plots.js` contains the pressure-sweep analyzer.  JavaScript numbers are
embedded as real numbers; `Math.max`/`Math.min` become `max`/`min`,
`Math.pow x 0.8` becomes `Real.rpow`, and the mutable `VehicleSim` object
becomes explicit state passing over the `SimState` structure.  Real numbers
are always finite, so the `isFinite` guard of `step` (which can only fire
under floating-point overflow) never fires in this embedding and is omitted;
apart from that every arithmetic operation is translated literally.
-/

noncomputable section

namespace VehicleSim

/-- The seven parallel history series of `this.buf` in `sim.js`. -/
structure Buf where
  time : List ℝ
  delta : List ℝ
  yaw : List ℝ
  slipFL : List ℝ
  FyFL : List ℝ
  MzFL : List ℝ
  ay : List ℝ

/-- The empty buffer produced by `resetBuffers()`. -/
def emptyBuf : Buf := ⟨[], [], [], [], [], [], []⟩

/-- The mutable state of a `VehicleSim` object (`sim.js`, constructor).
`visualBound` records whether `bindVisual` has been called (`this.visual`
is non-null); the visual nodes themselves are external to the simulator. -/
structure SimState where
  m : ℝ
  Iz : ℝ
  lf : ℝ
  lr : ℝ
  speed : ℝ
  P0 : ℝ
  Calpha0 : ℝ
  sigma0 : ℝ
  pressure : ℝ
  pressureFL : ℝ
  pressureFR : ℝ
  pressureRL : ℝ
  pressureRR : ℝ
  r : ℝ
  vy : ℝ
  time : ℝ
  wheelSpin : ℝ
  steerInput : ℝ
  visualBound : Bool
  frontSteerAngle : ℝ
  buf : Buf

/-- Constructor parameters (`new VehicleSim(params)` in `main.js`). -/
structure Params where
  m : ℝ
  Iz : ℝ
  lf : ℝ
  lr : ℝ
  u : ℝ
  P0 : ℝ
  Calpha0 : ℝ
  sigma0 : ℝ

/-- The `VehicleSim` constructor (`sim.js` lines 4-39): all pressures start
at `P0`, the dynamic state at zero, and the buffers empty. -/
def initSim (p : Params) : SimState where
  m := p.m
  Iz := p.Iz
  lf := p.lf
  lr := p.lr
  speed := p.u
  P0 := p.P0
  Calpha0 := p.Calpha0
  sigma0 := p.sigma0
  pressure := p.P0
  pressureFL := p.P0
  pressureFR := p.P0
  pressureRL := p.P0
  pressureRR := p.P0
  r := 0
  vy := 0
  time := 0
  wheelSpin := 0
  steerInput := 0
  visualBound := false
  frontSteerAngle := 0
  buf := emptyBuf

/-- The parameters used by `main.js` to build the session's simulator. -/
def mainParams : Params :=
  { m := 1500, Iz := 2500, lf := 1.2, lr := 1.6, u := 20, P0 := 32,
    Calpha0 := 80000, sigma0 := 0.2 }

/-- The clamping idiom `Math.max(lo, Math.min(hi, x))` used throughout
`step`. -/
def clamp (lo hi x : ℝ) : ℝ := max lo (min hi x)

/-- The `resetBuffers()` operation (`sim.js` lines 41-54): clears the seven
series and zeroes `time`, `vy`, `r`.  No other field is touched. -/
def resetBuffers (s : SimState) : SimState :=
  { s with buf := emptyBuf, time := 0, vy := 0, r := 0 }

/-- The `CalphaFromP(P)` law of the primary variant (`sim.js` lines 64-67):
`Calpha0 * Math.pow(P / P0, 0.8)` — no pressure floor. -/
def CalphaFromP (s : SimState) (P : ℝ) : ℝ :=
  s.Calpha0 * (P / s.P0) ^ (0.8 : ℝ)

/-- The `CalphaFromP(P)` law of the second variant (`sim.js` lines
409-414): `safeP = Math.max(0.1, P)` guards the base before the power
law. -/
def CalphaFromPSafe (s : SimState) (P : ℝ) : ℝ :=
  s.Calpha0 * (max 0.1 P / s.P0) ^ (0.8 : ℝ)

/-- The clamped forward speed `u = Math.max(0.01, this.speed)`. -/
def uSafe (s : SimState) : ℝ := max 0.01 s.speed

/-- The front axle pressure `Pf = 0.5 * (pressureFL + pressureFR)`. -/
def Pf (s : SimState) : ℝ := 0.5 * (s.pressureFL + s.pressureFR)

/-- The rear axle pressure `Pr = 0.5 * (pressureRL + pressureRR)`. -/
def Pr (s : SimState) : ℝ := 0.5 * (s.pressureRL + s.pressureRR)

/-- The slip clamp bound `maxSlip = 20 * Math.PI / 180`. -/
def maxSlip : ℝ := 20 * Real.pi / 180

/-- The front slip angle
`alpha_f = delta - (vy + lf*r)/u`, clamped to `±maxSlip`. -/
def alphaF (s : SimState) : ℝ :=
  clamp (-maxSlip) maxSlip
    (s.steerInput * Real.pi / 180 - (s.vy + s.lf * s.r) / uSafe s)

/-- The rear slip angle `alpha_r = -(vy - lr*r)/u`, clamped to
`±maxSlip`. -/
def alphaR (s : SimState) : ℝ :=
  clamp (-maxSlip) maxSlip (-(s.vy - s.lr * s.r) / uSafe s)

/-- The clamped front lateral force `Fy_f`, computed with the given
pressure-to-stiffness law `cal` (the two `step` variants differ only in
which `CalphaFromP` they call). -/
def FyF (cal : SimState → ℝ → ℝ) (s : SimState) : ℝ :=
  clamp (-100000) 100000 (-(cal s (Pf s)) * alphaF s)

/-- The clamped rear lateral force `Fy_r`. -/
def FyR (cal : SimState → ℝ → ℝ) (s : SimState) : ℝ :=
  clamp (-100000) 100000 (-(cal s (Pr s)) * alphaR s)

/-- The lateral-velocity derivative
`vy_dot = (Fy_f + Fy_r - Cv*vy)/m - u*r` with `Cv = 3000`. -/
def vyDot (cal : SimState → ℝ → ℝ) (s : SimState) : ℝ :=
  (FyF cal s + FyR cal s - 3000 * s.vy) / s.m - uSafe s * s.r

/-- The yaw-rate derivative
`r_dot = (lf*Fy_f - lr*Fy_r - Cr*r)/Iz` with `Cr = 2500`. -/
def rDot (cal : SimState → ℝ → ℝ) (s : SimState) : ℝ :=
  (s.lf * FyF cal s - s.lr * FyR cal s - 2500 * s.r) / s.Iz

/-- The per-series trim of the primary `step` (`sim.js` lines 142-146):
after the push, `if (this.buf[k].length > maxN) this.buf[k].shift()`. -/
def trim1 (l : List ℝ) : List ℝ := if 2000 < l.length then l.tail else l

/-- The `step(dt)` operation of the primary variant (`sim.js` lines
69-149).
Early-returns when `dt <= 0`; otherwise advances time, integrates the
bicycle model with damping, clamps the state, appends one record to every
series and trims each series to 2000 entries.  The record's lateral
acceleration is `ay = this.vy + u * this.r`, read from the already-updated
state.  The trailing `updateVisual(delta, alpha_f, Fy_f, dt)` only mutates
`frontSteerAngle` and `_wheelSpin` (and external scene nodes) and returns
immediately when no visual is bound. -/
def step (s : SimState) (dt : ℝ) : SimState :=
  if dt ≤ 0 then s else
    let t2 := s.time + dt
    let delta := s.steerInput * Real.pi / 180
    let vy1 := clamp (-50) 50 (s.vy + vyDot CalphaFromP s * dt)
    let r1 := clamp (-50) 50 (s.r + rDot CalphaFromP s * dt)
    let ay := vy1 + uSafe s * r1
    { s with
      time := t2
      vy := vy1
      r := r1
      buf :=
        { time := trim1 (s.buf.time ++ [t2])
          delta := trim1 (s.buf.delta ++ [s.steerInput])
          yaw := trim1 (s.buf.yaw ++ [r1 * 180 / Real.pi])
          slipFL := trim1 (s.buf.slipFL ++ [alphaF s * 180 / Real.pi])
          FyFL := trim1 (s.buf.FyFL ++ [FyF CalphaFromP s])
          MzFL := trim1 (s.buf.MzFL ++ [0.12 * FyF CalphaFromP s])
          ay := trim1 (s.buf.ay ++ [ay]) }
      frontSteerAngle :=
        if s.visualBound then
          s.frontSteerAngle + (delta - s.frontSteerAngle) * 0.2
        else s.frontSteerAngle
      wheelSpin :=
        if s.visualBound then s.wheelSpin + s.speed / 0.33 * dt
        else s.wheelSpin }

/-- JavaScript truncation toward zero, used by the `%` operator. -/
def jsTrunc (x : ℝ) : ℝ := if 0 ≤ x then (⌊x⌋ : ℝ) else -(⌊-x⌋ : ℝ)

/-- JavaScript remainder `a % b` (sign follows the dividend). -/
def jsMod (a b : ℝ) : ℝ := a - b * jsTrunc (a / b)

/-- The `step(dt)` operation of the second ("corrected, stable") variant
(`sim.js` lines 417-507).  Differences from the primary variant: the guard
is `if (!(dt > 0)) return`, the stiffness law applies the 0.1 psi floor,
every series is shifted *before* the push once `buf.time` holds 2000
entries, the recorded lateral acceleration is `ay = vy_dot + u * this.r`
(the repository comments this line "correct formula"), and the wheel-spin
phase is wrapped modulo `2π`. -/
def step2 (s : SimState) (dt : ℝ) : SimState :=
  if ¬ 0 < dt then s else
    let t2 := s.time + dt
    let delta := s.steerInput * Real.pi / 180
    let vy1 := clamp (-50) 50 (s.vy + vyDot CalphaFromPSafe s * dt)
    let r1 := clamp (-50) 50 (s.r + rDot CalphaFromPSafe s * dt)
    let ay := vyDot CalphaFromPSafe s + uSafe s * r1
    let pre : Buf :=
      if 2000 ≤ s.buf.time.length then
        { time := s.buf.time.tail, delta := s.buf.delta.tail
          yaw := s.buf.yaw.tail, slipFL := s.buf.slipFL.tail
          FyFL := s.buf.FyFL.tail, MzFL := s.buf.MzFL.tail
          ay := s.buf.ay.tail }
      else s.buf
    { s with
      time := t2
      vy := vy1
      r := r1
      buf :=
        { time := pre.time ++ [t2]
          delta := pre.delta ++ [s.steerInput]
          yaw := pre.yaw ++ [r1 * 180 / Real.pi]
          slipFL := pre.slipFL ++ [alphaF s * 180 / Real.pi]
          FyFL := pre.FyFL ++ [FyF CalphaFromPSafe s]
          MzFL := pre.MzFL ++ [0.12 * FyF CalphaFromPSafe s]
          ay := pre.ay ++ [ay] }
      frontSteerAngle :=
        if s.visualBound then
          s.frontSteerAngle + (delta - s.frontSteerAngle) * 0.2
        else s.frontSteerAngle
      wheelSpin :=
        if s.visualBound then
          jsMod (s.wheelSpin + s.speed / max 0.33 0.05 * dt) (2 * Real.pi)
        else s.wheelSpin }

/-- A bare JavaScript assignment `sim.pressure = v`: `pressure` is a plain
data property of `VehicleSim` (no setter is defined in `sim.js`), so the
assignment changes that field and nothing else. -/
def assignPressureField (s : SimState) (v : ℝ) : SimState :=
  { s with pressure := v }

/-- The `onChange` handler of the UI's global-pressure control
(`ui.js` lines 19-24): it writes `sim.pressure = v` and then also copies
`v` into all four per-wheel pressure fields. -/
def uiSetGlobalPressure (s : SimState) (v : ℝ) : SimState :=
  { s with pressure := v, pressureFL := v, pressureFR := v,
           pressureRL := v, pressureRR := v }

/-- The operations the external collaborators perform on the simulator:
`step` calls from the render loop or the sweep, `resetBuffers`, and the
input assignments exposed by the UI (`ui.js`). -/
inductive SimOp where
  | step (dt : ℝ)
  | reset
  | setSteer (v : ℝ)
  | setSpeed (v : ℝ)
  | setPressure (v : ℝ)
  | setPressureFL (v : ℝ)
  | setPressureFR (v : ℝ)
  | setPressureRL (v : ℝ)
  | setPressureRR (v : ℝ)
  | uiGlobalPressure (v : ℝ)

/-- Apply one external operation to the simulator state. -/
def applyOp (s : SimState) : SimOp → SimState
  | SimOp.step dt => step s dt
  | SimOp.reset => resetBuffers s
  | SimOp.setSteer v => { s with steerInput := v }
  | SimOp.setSpeed v => { s with speed := v }
  | SimOp.setPressure v => assignPressureField s v
  | SimOp.setPressureFL v => { s with pressureFL := v }
  | SimOp.setPressureFR v => { s with pressureFR := v }
  | SimOp.setPressureRL v => { s with pressureRL := v }
  | SimOp.setPressureRR v => { s with pressureRR := v }
  | SimOp.uiGlobalPressure v => uiSetGlobalPressure s v

/-- Run a sequence of external operations from a given state. -/
def run (s : SimState) (ops : List SimOp) : SimState := ops.foldl applyOp s

/-- All seven series of a buffer have the length of the `time` series. -/
def BufEqLen (b : Buf) : Prop :=
  b.delta.length = b.time.length ∧ b.yaw.length = b.time.length ∧
  b.slipFL.length = b.time.length ∧ b.FyFL.length = b.time.length ∧
  b.MzFL.length = b.time.length ∧ b.ay.length = b.time.length

/-- A concrete reachable-shaped state used for concrete evaluations: the
session simulator of `main.js` with a lateral velocity of 1 m/s. -/
def sC : SimState := { initSim mainParams with vy := 1 }

/-- A buffer whose seven series all hold 2000 entries (the capacity). -/
def capBuf : Buf :=
  ⟨List.replicate 2000 0, List.replicate 2000 0, List.replicate 2000 0,
   List.replicate 2000 0, List.replicate 2000 0, List.replicate 2000 0,
   List.replicate 2000 0⟩

/-- The session simulator with its history buffer filled to capacity. -/
def sCap : SimState := { initSim mainParams with buf := capBuf }

end VehicleSim

namespace SweepAnalyzer

open VehicleSim

/-- The small-slip sample filter and unit conversion of
`runPressureSweep` (`plots.js` lines 306-314): keep the samples with
`|slip| < 3` degrees and convert each kept slip angle to radians, pairing
it with its lateral-force sample. -/
def linearPoints (slip Fy : List ℝ) : List (ℝ × ℝ) :=
  ((slip.zip Fy).filter fun q => |q.1| < 3).map
    fun q => (q.1 * Real.pi / 180, q.2)

/-- Sum of the x components of a point list. -/
def sumX (pts : List (ℝ × ℝ)) : ℝ := (pts.map fun p => p.1).sum

/-- Sum of the y components of a point list. -/
def sumY (pts : List (ℝ × ℝ)) : ℝ := (pts.map fun p => p.2).sum

/-- Sum of the products `x*y` of a point list. -/
def sumXY (pts : List (ℝ × ℝ)) : ℝ := (pts.map fun p => p.1 * p.2).sum

/-- Sum of the squares `x*x` of a point list. -/
def sumXX (pts : List (ℝ × ℝ)) : ℝ := (pts.map fun p => p.1 * p.1).sum

/-- The cornering-stiffness estimate of `runPressureSweep`
(`plots.js` lines 316-330): with `n` qualifying points, if `n >= 4` the
slope `(n*Σxy - Σx*Σy) / (n*Σxx - Σx*Σx)`, otherwise `0`. -/
def CEst (slip Fy : List ℝ) : ℝ :=
  if 4 ≤ (linearPoints slip Fy).length then
    (((linearPoints slip Fy).length : ℝ) * sumXY (linearPoints slip Fy) -
        sumX (linearPoints slip Fy) * sumY (linearPoints slip Fy)) /
      (((linearPoints slip Fy).length : ℝ) * sumXX (linearPoints slip Fy) -
        sumX (linearPoints slip Fy) * sumX (linearPoints slip Fy))
  else 0

/-- Modelled from the spec: the ordinary least-squares slope of y against
x over a point list, in its mean-centered textbook form
`Σ (x-x̄)(y-ȳ) / Σ (x-x̄)²`.  (The spec sentence for the stiffness
estimate names this quantity; this definition follows the spec's words and
is compared against `CEst`, which follows the code.) -/
def olsSlope (pts : List (ℝ × ℝ)) : ℝ :=
  (pts.map fun p =>
    (p.1 - sumX pts / (pts.length : ℝ)) *
      (p.2 - sumY pts / (pts.length : ℝ))).sum /
    (pts.map fun p => (p.1 - sumX pts / (pts.length : ℝ)) ^ 2).sum

/-- One pressure point of `runPressureSweep` (`plots.js` lines 275-303),
state part: set all four wheel pressures to `P` (the legacy `pressure`
field is not written), reset the buffers, set the 3-degree sweep steering
excitation, then run 150 settle steps and 100 sample steps of 0.01 s each
(`for (let t = 0; t < 1.5; t += 0.01)` and `t < 1.0` respectively). -/
def sweepPoint (s : SimState) (P : ℝ) : SimState :=
  (fun t => step t 0.01)^[100]
    ((fun t => step t 0.01)^[150]
      { resetBuffers
          { s with pressureFL := P, pressureFR := P,
                   pressureRL := P, pressureRR := P } with
        steerInput := 3 })

/-- The swept pressures `for (let p = 20; p <= 40; p += 2)`. -/
def sweepPressures : List ℝ := [20, 22, 24, 26, 28, 30, 32, 34, 36, 38, 40]

/-- The simulator state left behind by a full `runPressureSweep` run. -/
def sweepFinalState (s : SimState) : SimState :=
  sweepPressures.foldl sweepPoint s

end SweepAnalyzer

namespace VehicleSim

/-- Clamping a value already inside the bounds returns it unchanged. -/
lemma clamp_eq_self (lo hi x : ℝ) (h1 : lo ≤ x) (h2 : x ≤ hi) :
    clamp lo hi x = x := by
  unfold clamp
  rw [min_eq_right h2, max_eq_right h1]

/-- The result of a `±50` clamp has absolute value at most 50. -/
lemma clamp_abs_le (x : ℝ) : |clamp (-50) 50 x| ≤ 50 := by
  unfold clamp
  rw [abs_le]
  exact ⟨le_max_left _ _, max_le (by norm_num) (min_le_left _ _)⟩

/-- Unfolded form of the primary `step` when `dt > 0`. -/
lemma step_pos_def (s : SimState) (dt : ℝ) (h : 0 < dt) :
    step s dt =
      { s with
        time := s.time + dt
        vy := clamp (-50) 50 (s.vy + vyDot CalphaFromP s * dt)
        r := clamp (-50) 50 (s.r + rDot CalphaFromP s * dt)
        buf :=
          { time := trim1 (s.buf.time ++ [s.time + dt])
            delta := trim1 (s.buf.delta ++ [s.steerInput])
            yaw := trim1 (s.buf.yaw ++
              [clamp (-50) 50 (s.r + rDot CalphaFromP s * dt) * 180 /
                Real.pi])
            slipFL := trim1 (s.buf.slipFL ++ [alphaF s * 180 / Real.pi])
            FyFL := trim1 (s.buf.FyFL ++ [FyF CalphaFromP s])
            MzFL := trim1 (s.buf.MzFL ++ [0.12 * FyF CalphaFromP s])
            ay := trim1 (s.buf.ay ++
              [clamp (-50) 50 (s.vy + vyDot CalphaFromP s * dt) +
                uSafe s *
                  clamp (-50) 50 (s.r + rDot CalphaFromP s * dt)]) }
        frontSteerAngle :=
          if s.visualBound then
            s.frontSteerAngle +
              (s.steerInput * Real.pi / 180 - s.frontSteerAngle) * 0.2
          else s.frontSteerAngle
        wheelSpin :=
          if s.visualBound then s.wheelSpin + s.speed / 0.33 * dt
          else s.wheelSpin } := by
  unfold step
  rw [if_neg (not_le.mpr h)]

/-- C6: for every `dt <= 0`, `step(dt)` is a complete no-op — it appends
nothing to the history buffer and leaves every state, input and
configuration field unchanged (and, being a total function, raises
nothing). -/
theorem step_noop_of_nonpos (s : SimState) (dt : ℝ) (h : dt ≤ 0) :
    step s dt = s := by
  unfold step
  rw [if_pos h]

/-- Witness for C6: stepping the session simulator by `dt = 0` returns the
state unchanged. -/
theorem step_noop_of_nonpos_witness :
    (0 : ℝ) ≤ 0 ∧ step (initSim mainParams) 0 = initSim mainParams :=
  ⟨le_refl 0, step_noop_of_nonpos (initSim mainParams) 0 (le_refl 0)⟩

/-- C9: `resetBuffers()` empties all series, zeroes `time`, `vy`, `r`,
leaves the configuration (`m`, `Iz`, `lf`, `lr`, `P0`, `Calpha0`) and the
current inputs (the four wheel pressures, steering, speed) unchanged, and
is idempotent. -/
theorem resetBuffers_spec (s : SimState) :
    (resetBuffers s).buf = emptyBuf ∧ (resetBuffers s).time = 0 ∧
    (resetBuffers s).r = 0 ∧ (resetBuffers s).vy = 0 ∧
    (resetBuffers s).m = s.m ∧ (resetBuffers s).Iz = s.Iz ∧
    (resetBuffers s).lf = s.lf ∧ (resetBuffers s).lr = s.lr ∧
    (resetBuffers s).P0 = s.P0 ∧ (resetBuffers s).Calpha0 = s.Calpha0 ∧
    (resetBuffers s).pressureFL = s.pressureFL ∧
    (resetBuffers s).pressureFR = s.pressureFR ∧
    (resetBuffers s).pressureRL = s.pressureRL ∧
    (resetBuffers s).pressureRR = s.pressureRR ∧
    (resetBuffers s).steerInput = s.steerInput ∧
    (resetBuffers s).speed = s.speed ∧
    resetBuffers (resetBuffers s) = resetBuffers s :=
  ⟨rfl, rfl, rfl, rfl, rfl, rfl, rfl, rfl, rfl, rfl, rfl, rfl, rfl, rfl,
   rfl, rfl, rfl⟩

/-- Counterexample for C3: on the session simulator (all pressures 32),
the plain assignment `sim.pressure = 40` at the `VehicleSim` boundary
leaves `pressureFL` at 32 — it does not set the four per-wheel
pressures. -/
theorem assignPressure_not_uniform :
    (assignPressureField (initSim mainParams) 40).pressure = 40 ∧
    (assignPressureField (initSim mainParams) 40).pressureFL ≠ 40 := by
  constructor
  · rfl
  · show (32 : ℝ) ≠ 40
    norm_num

/-- C3 (amended): a bare assignment to the simulator's legacy `pressure`
field changes only that field, leaving the four per-wheel pressures
untouched; it is the UI's global-pressure handler (`ui.js` lines 19-24)
that assigns the value to the legacy field and to all four per-wheel
pressures. -/
theorem pressure_assignment_semantics (s : SimState) (v : ℝ) :
    (assignPressureField s v).pressure = v ∧
    (assignPressureField s v).pressureFL = s.pressureFL ∧
    (assignPressureField s v).pressureFR = s.pressureFR ∧
    (assignPressureField s v).pressureRL = s.pressureRL ∧
    (assignPressureField s v).pressureRR = s.pressureRR ∧
    (uiSetGlobalPressure s v).pressure = v ∧
    (uiSetGlobalPressure s v).pressureFL = v ∧
    (uiSetGlobalPressure s v).pressureFR = v ∧
    (uiSetGlobalPressure s v).pressureRL = v ∧
    (uiSetGlobalPressure s v).pressureRR = v :=
  ⟨rfl, rfl, rfl, rfl, rfl, rfl, rfl, rfl, rfl, rfl⟩

/-- Counterexample for C2: the primary variant's `CalphaFromP` has no
pressure floor — at `P = 0` it returns 0 (a non-positive stiffness), not
the positive value `Calpha0 * (max(0, 0.1)/P0)^0.8` the claim asserts. -/
theorem CalphaFromP_no_floor_at_zero :
    CalphaFromP (initSim mainParams) 0 = 0 ∧
    CalphaFromP (initSim mainParams) 0 ≠
      (initSim mainParams).Calpha0 *
        (max 0.1 0 / (initSim mainParams).P0) ^ (0.8 : ℝ) := by
  have h0 : CalphaFromP (initSim mainParams) 0 = 0 := by
    unfold CalphaFromP
    rw [zero_div, Real.zero_rpow (by norm_num), mul_zero]
  refine ⟨h0, ?_⟩
  rw [h0]
  have hpos : (0 : ℝ) <
      (initSim mainParams).Calpha0 *
        (max 0.1 0 / (initSim mainParams).P0) ^ (0.8 : ℝ) := by
    apply mul_pos
    · show (0 : ℝ) < 80000
      norm_num
    · apply Real.rpow_pos_of_pos
      apply div_pos (by norm_num)
      show (0 : ℝ) < 32
      norm_num
  intro h
  exact hpos.ne' h.symm

/-- C2 (amended): the second variant's `CalphaFromP` computes
`Calpha0 * (max(P, 0.1)/P0)^0.8` for every `P` (including zero and
negative values), and for positive `Calpha0` and `P0` its result is
always positive; the primary variant applies no floor, so a non-positive
pressure input there does not yield the stiffness of a positive
pressure. -/
theorem CalphaFromPSafe_spec (s : SimState) (P : ℝ) :
    CalphaFromPSafe s P = s.Calpha0 * (max 0.1 P / s.P0) ^ (0.8 : ℝ) ∧
    (0 < s.Calpha0 → 0 < s.P0 → 0 < CalphaFromPSafe s P) := by
  refine ⟨rfl, fun hC hP => ?_⟩
  unfold CalphaFromPSafe
  have hb : (0 : ℝ) < max 0.1 P / s.P0 :=
    div_pos (lt_of_lt_of_le (by norm_num) (le_max_left 0.1 P)) hP
  exact mul_pos hC (Real.rpow_pos_of_pos hb _)

/-- Witness for C2: on the session simulator the guarded stiffness law
yields a positive value even at the negative pressure `-5` psi. -/
theorem CalphaFromPSafe_spec_witness :
    (0 : ℝ) < (initSim mainParams).Calpha0 ∧
    (0 : ℝ) < (initSim mainParams).P0 ∧
    0 < CalphaFromPSafe (initSim mainParams) (-5) :=
  have hC : (0 : ℝ) < (initSim mainParams).Calpha0 := by
    show (0 : ℝ) < 80000
    norm_num
  have hP : (0 : ℝ) < (initSim mainParams).P0 := by
    show (0 : ℝ) < 32
    norm_num
  ⟨hC, hP, (CalphaFromPSafe_spec (initSim mainParams) (-5)).2 hC hP⟩

/-- Counterexample for C7: the floored variant of the stiffness law is
not strictly increasing over all `P > 0` — on the session simulator it
takes the same value at `P = 0.05` and `P = 0.08`, both below the 0.1 psi
floor. -/
theorem CalphaFromPSafe_not_strictly_increasing :
    (0 : ℝ) < 0.05 ∧ (0.05 : ℝ) < 0.08 ∧
    CalphaFromPSafe (initSim mainParams) 0.05 =
      CalphaFromPSafe (initSim mainParams) 0.08 := by
  refine ⟨by norm_num, by norm_num, ?_⟩
  unfold CalphaFromPSafe
  rw [max_eq_left (by norm_num : (0.05 : ℝ) ≤ 0.1),
    max_eq_left (by norm_num : (0.08 : ℝ) ≤ 0.1)]

/-- C7 (amended): for positive `Calpha0` and `P0`, the unfloored primary
`CalphaFromP` is strictly increasing over all `P > 0`, while the floored
second variant is strictly increasing only from the 0.1 psi floor upward
(below the floor it is constant). -/
theorem CalphaFromP_monotone (s : SimState) (hC : 0 < s.Calpha0)
    (hP0 : 0 < s.P0) :
    (∀ P1 P2 : ℝ, 0 < P1 → P1 < P2 →
      CalphaFromP s P1 < CalphaFromP s P2) ∧
    (∀ P1 P2 : ℝ, 0.1 ≤ P1 → P1 < P2 →
      CalphaFromPSafe s P1 < CalphaFromPSafe s P2) := by
  constructor
  · intro P1 P2 h1 h12
    unfold CalphaFromP
    apply mul_lt_mul_of_pos_left _ hC
    apply Real.rpow_lt_rpow (le_of_lt (div_pos h1 hP0)) _ (by norm_num)
    exact (div_lt_div_iff_of_pos_right hP0).mpr h12
  · intro P1 P2 h1 h12
    unfold CalphaFromPSafe
    apply mul_lt_mul_of_pos_left _ hC
    rw [max_eq_right h1, max_eq_right (le_trans h1 (le_of_lt h12))]
    have hP1 : (0 : ℝ) < P1 := lt_of_lt_of_le (by norm_num) h1
    apply Real.rpow_lt_rpow (le_of_lt (div_pos hP1 hP0)) _ (by norm_num)
    exact (div_lt_div_iff_of_pos_right hP0).mpr h12

/-- The slip-angle clamp bound is at least 1/20 radian. -/
lemma maxSlip_ge : (1 / 20 : ℝ) ≤ maxSlip := by
  unfold maxSlip
  nlinarith [Real.pi_gt_three]

/-- On the concrete state `sC` the clamped forward speed is 20 m/s. -/
lemma uSafe_sC : uSafe sC = 20 := by
  unfold uSafe
  show max 0.01 (20 : ℝ) = 20
  exact max_eq_right (by norm_num)

/-- On `sC` the clamped front slip angle is `-1/20` radian. -/
lemma alphaF_sC : alphaF sC = -(1 / 20) := by
  unfold alphaF
  rw [uSafe_sC]
  have hraw : sC.steerInput * Real.pi / 180 - (sC.vy + sC.lf * sC.r) / 20 =
      -(1 / 20) := by
    show (0 : ℝ) * Real.pi / 180 - ((1 : ℝ) + 1.2 * 0) / 20 = -(1 / 20)
    ring
  rw [hraw]
  have h := maxSlip_ge
  exact clamp_eq_self _ _ _ (by linarith) (by linarith)

/-- On `sC` the clamped rear slip angle is `-1/20` radian. -/
lemma alphaR_sC : alphaR sC = -(1 / 20) := by
  unfold alphaR
  rw [uSafe_sC]
  have hraw : -(sC.vy - sC.lr * sC.r) / 20 = -(1 / 20) := by
    show -((1 : ℝ) - 1.6 * 0) / 20 = -(1 / 20)
    ring
  rw [hraw]
  have h := maxSlip_ge
  exact clamp_eq_self _ _ _ (by linarith) (by linarith)

/-- On `sC` both axle stiffnesses equal the reference value 80000. -/
lemma cal_sC : CalphaFromP sC (Pf sC) = 80000 ∧
    CalphaFromP sC (Pr sC) = 80000 := by
  have hf : Pf sC = 32 := by
    show (0.5 : ℝ) * (32 + 32) = 32
    norm_num
  have hr : Pr sC = 32 := by
    show (0.5 : ℝ) * (32 + 32) = 32
    norm_num
  constructor <;> [rw [hf]; rw [hr]] <;>
    · unfold CalphaFromP
      show (80000 : ℝ) * ((32 : ℝ) / 32) ^ (0.8 : ℝ) = 80000
      rw [div_self (by norm_num : (32 : ℝ) ≠ 0), Real.one_rpow, mul_one]

/-- On `sC` both clamped lateral forces equal 4000 N. -/
lemma Fy_sC : FyF CalphaFromP sC = 4000 ∧ FyR CalphaFromP sC = 4000 := by
  constructor
  · unfold FyF
    rw [cal_sC.1, alphaF_sC]
    rw [show -(80000 : ℝ) * -(1 / 20) = 4000 by norm_num]
    exact clamp_eq_self _ _ _ (by norm_num) (by norm_num)
  · unfold FyR
    rw [cal_sC.2, alphaR_sC]
    rw [show -(80000 : ℝ) * -(1 / 20) = 4000 by norm_num]
    exact clamp_eq_self _ _ _ (by norm_num) (by norm_num)

/-- On `sC` the lateral-velocity derivative is `10/3`. -/
lemma vyDot_sC : vyDot CalphaFromP sC = 10 / 3 := by
  unfold vyDot
  rw [Fy_sC.1, Fy_sC.2, uSafe_sC]
  show ((4000 : ℝ) + 4000 - 3000 * 1) / 1500 - 20 * 0 = 10 / 3
  norm_num

/-- On `sC` the yaw-rate derivative is `-16/25`. -/
lemma rDot_sC : rDot CalphaFromP sC = -(16 / 25) := by
  unfold rDot
  rw [Fy_sC.1, Fy_sC.2]
  show ((1.2 : ℝ) * 4000 - 1.6 * 4000 - 2500 * 0) / 2500 = -(16 / 25)
  norm_num

/-- After one 0.01 s primary step from `sC` the yaw rate is `-16/2500`. -/
lemma step_sC_r : (step sC 0.01).r = -(16 / 2500) := by
  rw [step_pos_def sC 0.01 (by norm_num)]
  show clamp (-50) 50 (sC.r + rDot CalphaFromP sC * 0.01) = -(16 / 2500)
  rw [rDot_sC]
  rw [show sC.r + -(16 / 25) * 0.01 = -(16 / 2500) by
    show (0 : ℝ) + -(16 / 25) * 0.01 = -(16 / 2500)
    norm_num]
  exact clamp_eq_self _ _ _ (by norm_num) (by norm_num)

/-- After one 0.01 s primary step from `sC` the recorded lateral
acceleration is `31/30 + 20 * -(16/2500)` — the updated lateral velocity
plus `u` times the updated yaw rate. -/
lemma step_sC_ay :
    (step sC 0.01).buf.ay.getLast? = some (31 / 30 + 20 * -(16 / 2500)) := by
  rw [step_pos_def sC 0.01 (by norm_num)]
  show (trim1 (sC.buf.ay ++
      [clamp (-50) 50 (sC.vy + vyDot CalphaFromP sC * 0.01) +
        uSafe sC * clamp (-50) 50
          (sC.r + rDot CalphaFromP sC * 0.01)])).getLast? = _
  rw [vyDot_sC, rDot_sC, uSafe_sC]
  rw [show sC.vy + 10 / 3 * 0.01 = (31 / 30 : ℝ) by
    show (1 : ℝ) + 10 / 3 * 0.01 = 31 / 30
    norm_num]
  rw [show sC.r + -(16 / 25) * 0.01 = -(16 / 2500 : ℝ) by
    show (0 : ℝ) + -(16 / 25) * 0.01 = -(16 / 2500)
    norm_num]
  rw [clamp_eq_self _ _ _ (by norm_num) (by norm_num),
    clamp_eq_self _ _ _ (by norm_num) (by norm_num)]
  show (trim1 ([] ++ [(31 / 30 : ℝ) + 20 * -(16 / 2500)])).getLast? = _
  rw [List.nil_append]
  rw [show trim1 [(31 / 30 : ℝ) + 20 * -(16 / 2500)] =
      [(31 / 30 : ℝ) + 20 * -(16 / 2500)] by
    unfold trim1
    rw [if_neg (by norm_num)]]
  rfl

/-- Counterexample for C1: in the primary `step` variant, the lateral
acceleration appended to the buffer is computed from the updated lateral
velocity, not from `vy_dot`: for the concrete state `sC` and
`dt = 0.01`, the stored value differs from `vy_dot + u*r` whether `r` is
taken as the updated or as the pre-step yaw rate. -/
theorem step_ay_mismatch :
    (step sC 0.01).buf.ay.getLast? ≠
      some (vyDot CalphaFromP sC + uSafe sC * (step sC 0.01).r) ∧
    (step sC 0.01).buf.ay.getLast? ≠
      some (vyDot CalphaFromP sC + uSafe sC * sC.r) := by
  rw [step_sC_ay, step_sC_r, vyDot_sC, uSafe_sC]
  constructor
  · intro h
    rw [Option.some_inj] at h
    norm_num at h
  · intro h
    rw [Option.some_inj] at h
    rw [show sC.r = (0 : ℝ) from rfl] at h
    norm_num at h

/-- Unfolded form of the second-variant `step2` when `dt > 0`. -/
lemma step2_pos_def (s : SimState) (dt : ℝ) (h : 0 < dt) :
    step2 s dt =
      (let pre : Buf :=
        if 2000 ≤ s.buf.time.length then
          { time := s.buf.time.tail, delta := s.buf.delta.tail
            yaw := s.buf.yaw.tail, slipFL := s.buf.slipFL.tail
            FyFL := s.buf.FyFL.tail, MzFL := s.buf.MzFL.tail
            ay := s.buf.ay.tail }
        else s.buf
      { s with
        time := s.time + dt
        vy := clamp (-50) 50 (s.vy + vyDot CalphaFromPSafe s * dt)
        r := clamp (-50) 50 (s.r + rDot CalphaFromPSafe s * dt)
        buf :=
          { time := pre.time ++ [s.time + dt]
            delta := pre.delta ++ [s.steerInput]
            yaw := pre.yaw ++
              [clamp (-50) 50 (s.r + rDot CalphaFromPSafe s * dt) * 180 /
                Real.pi]
            slipFL := pre.slipFL ++ [alphaF s * 180 / Real.pi]
            FyFL := pre.FyFL ++ [FyF CalphaFromPSafe s]
            MzFL := pre.MzFL ++ [0.12 * FyF CalphaFromPSafe s]
            ay := pre.ay ++
              [vyDot CalphaFromPSafe s +
                uSafe s *
                  clamp (-50) 50 (s.r + rDot CalphaFromPSafe s * dt)] }
        frontSteerAngle :=
          if s.visualBound then
            s.frontSteerAngle +
              (s.steerInput * Real.pi / 180 - s.frontSteerAngle) * 0.2
          else s.frontSteerAngle
        wheelSpin :=
          if s.visualBound then
            jsMod (s.wheelSpin + s.speed / max 0.33 0.05 * dt)
              (2 * Real.pi)
          else s.wheelSpin }) := by
  unfold step2
  rw [if_neg (not_not_intro h)]

/-- C1 (amended): in the second ("corrected") `step` variant, the lateral
acceleration appended to the buffer on every `dt > 0` step equals
`vy_dot + u*r`, with `vy_dot` the lateral-velocity derivative computed in
that step, `u` the clamped forward speed, and `r` the updated yaw rate;
the primary variant instead stores the updated lateral velocity plus
`u*r`. -/
theorem step2_ay_record (s : SimState) (dt : ℝ) (h : 0 < dt) :
    (step2 s dt).buf.ay.getLast? =
      some (vyDot CalphaFromPSafe s + uSafe s * (step2 s dt).r) := by
  rw [step2_pos_def s dt h]
  simp only []
  rw [List.getLast?_concat]

/-- Witness for C1: the recorded lateral acceleration of a 1 s
second-variant step from the session simulator. -/
theorem step2_ay_record_witness :
    (0 : ℝ) < 1 ∧
    (step2 (initSim mainParams) 1).buf.ay.getLast? =
      some (vyDot CalphaFromPSafe (initSim mainParams) +
        uSafe (initSim mainParams) * (step2 (initSim mainParams) 1).r) :=
  ⟨one_pos, step2_ay_record (initSim mainParams) 1 one_pos⟩

/-- Witness for C7: on the session simulator (positive `Calpha0` and
`P0`), the unfloored stiffness strictly increases from 1 psi to 2 psi. -/
theorem CalphaFromP_monotone_witness :
    (0 : ℝ) < (initSim mainParams).Calpha0 ∧
    (0 : ℝ) < (initSim mainParams).P0 ∧
    CalphaFromP (initSim mainParams) 1 < CalphaFromP (initSim mainParams) 2 :=
  have hC : (0 : ℝ) < (initSim mainParams).Calpha0 := by
    show (0 : ℝ) < 80000
    norm_num
  have hP : (0 : ℝ) < (initSim mainParams).P0 := by
    show (0 : ℝ) < 32
    norm_num
  ⟨hC, hP,
    (CalphaFromP_monotone (initSim mainParams) hC hP).1 1 2 one_pos
      one_lt_two⟩

/-- The dynamic-state bound maintained by the integrator. -/
def StateBounded (s : SimState) : Prop := |s.vy| ≤ 50 ∧ |s.r| ≤ 50

/-- A primary step keeps the dynamic state inside the `±50` clamps. -/
lemma step_bounded (s : SimState) (dt : ℝ) (h : StateBounded s) :
    StateBounded (step s dt) := by
  by_cases hdt : dt ≤ 0
  · rw [step_noop_of_nonpos s dt hdt]
    exact h
  · rw [step_pos_def s dt (not_le.mp hdt)]
    exact ⟨clamp_abs_le _, clamp_abs_le _⟩

/-- Every external operation keeps the dynamic state inside the clamps. -/
lemma applyOp_bounded (s : SimState) (op : SimOp) (h : StateBounded s) :
    StateBounded (applyOp s op) := by
  cases op with
  | step dt => exact step_bounded s dt h
  | reset =>
    constructor
    · show |(0 : ℝ)| ≤ 50
      norm_num
    · show |(0 : ℝ)| ≤ 50
      norm_num
  | setSteer v => exact h
  | setSpeed v => exact h
  | setPressure v => exact h
  | setPressureFL v => exact h
  | setPressureFR v => exact h
  | setPressureRL v => exact h
  | setPressureRR v => exact h
  | uiGlobalPressure v => exact h

/-- A run of external operations preserves the dynamic-state bound. -/
lemma run_bounded (ops : List SimOp) (s : SimState) (h : StateBounded s) :
    StateBounded (run s ops) := by
  induction ops generalizing s with
  | nil => exact h
  | cons op tl ih => exact ih (applyOp s op) (applyOp_bounded s op h)

/-- C4: after any sequence of external operations on a freshly constructed
simulator — in particular after every `step(dt)` call — the lateral
velocity and yaw rate satisfy `|vy| <= 50` and `|r| <= 50`.  In this
real-number embedding both quantities are always finite and `step` is a
total function (it raises nothing); the non-finite reset branch can only
fire under floating-point overflow and is therefore never taken here. -/
theorem run_state_bounded (p : Params) (ops : List SimOp) :
    |(run (initSim p) ops).vy| ≤ 50 ∧ |(run (initSim p) ops).r| ≤ 50 :=
  run_bounded ops (initSim p)
    ⟨by show |(0 : ℝ)| ≤ 50; norm_num, by show |(0 : ℝ)| ≤ 50; norm_num⟩

/-- The length of a trimmed series. -/
lemma trim1_length (l : List ℝ) :
    (trim1 l).length = if 2000 < l.length then l.length - 1 else l.length := by
  unfold trim1
  split
  · exact List.length_tail l
  · rfl

/-- The buffer invariant: equal series lengths, at most 2000 entries. -/
def BufInv (b : Buf) : Prop := BufEqLen b ∧ b.time.length ≤ 2000

/-- A primary step preserves the buffer invariant. -/
lemma step_bufInv (s : SimState) (dt : ℝ) (h : BufInv s.buf) :
    BufInv (step s dt).buf := by
  by_cases hdt : dt ≤ 0
  · rw [step_noop_of_nonpos s dt hdt]
    exact h
  · rw [step_pos_def s dt (not_le.mp hdt)]
    obtain ⟨⟨h1, h2, h3, h4, h5, h6⟩, hlen⟩ := h
    refine ⟨⟨?_, ?_, ?_, ?_, ?_, ?_⟩, ?_⟩
    all_goals
      simp only [trim1_length, List.length_append, List.length_cons,
        List.length_nil, h1, h2, h3, h4, h5, h6]
    split <;> omega

/-- Every external operation preserves the buffer invariant. -/
lemma applyOp_bufInv (s : SimState) (op : SimOp) (h : BufInv s.buf) :
    BufInv (applyOp s op).buf := by
  cases op with
  | step dt => exact step_bufInv s dt h
  | reset =>
    exact ⟨⟨rfl, rfl, rfl, rfl, rfl, rfl⟩, by
      show (List.length ([] : List ℝ)) ≤ 2000
      simp⟩
  | setSteer v => exact h
  | setSpeed v => exact h
  | setPressure v => exact h
  | setPressureFL v => exact h
  | setPressureFR v => exact h
  | setPressureRL v => exact h
  | setPressureRR v => exact h
  | uiGlobalPressure v => exact h

/-- A run of external operations preserves the buffer invariant. -/
lemma run_bufInv (ops : List SimOp) (s : SimState) (h : BufInv s.buf) :
    BufInv (run s ops).buf := by
  induction ops generalizing s with
  | nil => exact h
  | cons op tl ih => exact ih (applyOp s op) (applyOp_bufInv s op h)

/-- Appending to a nonempty list and dropping the head commute. -/
lemma tail_append_singleton {l : List ℝ} (x : ℝ) (h : l ≠ []) :
    (l ++ [x]).tail = l.tail ++ [x] := by
  cases l with
  | nil => exact absurd rfl h
  | cons a tl => rfl

/-- Trimming a push onto a series already at capacity evicts the oldest
entry. -/
lemma trim1_at_capacity {l : List ℝ} (x : ℝ) (h : l.length = 2000) :
    trim1 (l ++ [x]) = l.tail ++ [x] := by
  unfold trim1
  rw [if_pos (by simp [h])]
  apply tail_append_singleton
  intro hnil
  rw [hnil] at h
  simp at h

/-- C5: after any sequence of `step` and `resetBuffers` calls (and input
assignments) on a freshly constructed simulator, the seven history series
have identical length and that length never exceeds 2000; moreover, when
a `dt > 0` step is taken with the equal-length buffer at capacity, every
series evicts its oldest record and appends one new record (FIFO). -/
theorem buffer_invariant_and_fifo :
    (∀ (p : Params) (ops : List SimOp),
      BufEqLen (run (initSim p) ops).buf ∧
      (run (initSim p) ops).buf.time.length ≤ 2000) ∧
    (∀ (s : SimState) (dt : ℝ), 0 < dt → BufEqLen s.buf →
      s.buf.time.length = 2000 →
      (∃ v, (step s dt).buf.time = s.buf.time.tail ++ [v]) ∧
      (∃ v, (step s dt).buf.delta = s.buf.delta.tail ++ [v]) ∧
      (∃ v, (step s dt).buf.yaw = s.buf.yaw.tail ++ [v]) ∧
      (∃ v, (step s dt).buf.slipFL = s.buf.slipFL.tail ++ [v]) ∧
      (∃ v, (step s dt).buf.FyFL = s.buf.FyFL.tail ++ [v]) ∧
      (∃ v, (step s dt).buf.MzFL = s.buf.MzFL.tail ++ [v]) ∧
      (∃ v, (step s dt).buf.ay = s.buf.ay.tail ++ [v])) := by
  constructor
  · intro p ops
    exact run_bufInv ops (initSim p)
      ⟨⟨rfl, rfl, rfl, rfl, rfl, rfl⟩, by
        show (List.length ([] : List ℝ)) ≤ 2000
        simp⟩
  · intro s dt hdt heq hcap
    obtain ⟨h1, h2, h3, h4, h5, h6⟩ := heq
    rw [step_pos_def s dt hdt]
    refine ⟨⟨_, trim1_at_capacity _ hcap⟩,
      ⟨_, trim1_at_capacity _ (h1.trans hcap)⟩,
      ⟨_, trim1_at_capacity _ (h2.trans hcap)⟩,
      ⟨_, trim1_at_capacity _ (h3.trans hcap)⟩,
      ⟨_, trim1_at_capacity _ (h4.trans hcap)⟩,
      ⟨_, trim1_at_capacity _ (h5.trans hcap)⟩,
      ⟨_, trim1_at_capacity _ (h6.trans hcap)⟩⟩

/-- Witness for C5: a `dt = 1` step on the session simulator whose buffer
is filled to capacity evicts the oldest record of every series. -/
theorem buffer_invariant_and_fifo_witness :
    (0 : ℝ) < 1 ∧ BufEqLen sCap.buf ∧ sCap.buf.time.length = 2000 ∧
    ((∃ v, (step sCap 1).buf.time = sCap.buf.time.tail ++ [v]) ∧
     (∃ v, (step sCap 1).buf.delta = sCap.buf.delta.tail ++ [v]) ∧
     (∃ v, (step sCap 1).buf.yaw = sCap.buf.yaw.tail ++ [v]) ∧
     (∃ v, (step sCap 1).buf.slipFL = sCap.buf.slipFL.tail ++ [v]) ∧
     (∃ v, (step sCap 1).buf.FyFL = sCap.buf.FyFL.tail ++ [v]) ∧
     (∃ v, (step sCap 1).buf.MzFL = sCap.buf.MzFL.tail ++ [v]) ∧
     (∃ v, (step sCap 1).buf.ay = sCap.buf.ay.tail ++ [v])) :=
  have h1 : (0 : ℝ) < 1 := one_pos
  have h2 : BufEqLen sCap.buf := ⟨rfl, rfl, rfl, rfl, rfl, rfl⟩
  have h3 : sCap.buf.time.length = 2000 := by
    show (List.replicate 2000 (0 : ℝ)).length = 2000
    rw [List.length_replicate]
  ⟨h1, h2, h3, buffer_invariant_and_fifo.2 sCap 1 h1 h2 h3⟩

/-- A primary step never changes the pressure and steering inputs. -/
lemma step_keeps_inputs (s : SimState) (dt : ℝ) :
    (step s dt).pressureFL = s.pressureFL ∧
    (step s dt).pressureFR = s.pressureFR ∧
    (step s dt).pressureRL = s.pressureRL ∧
    (step s dt).pressureRR = s.pressureRR ∧
    (step s dt).steerInput = s.steerInput := by
  by_cases hdt : dt ≤ 0
  · rw [step_noop_of_nonpos s dt hdt]
    exact ⟨rfl, rfl, rfl, rfl, rfl⟩
  · rw [step_pos_def s dt (not_le.mp hdt)]
    exact ⟨rfl, rfl, rfl, rfl, rfl⟩

/-- A `dt = 0.01` step on a buffer strictly below capacity appends
exactly one record to the `time` series. -/
lemma step_buflen_lt (s : SimState) (h : s.buf.time.length < 2000) :
    (step s 0.01).buf.time.length = s.buf.time.length + 1 := by
  rw [step_pos_def s 0.01 (by norm_num)]
  show (trim1 (s.buf.time ++ [s.time + 0.01])).length = _
  rw [trim1_length, List.length_append]
  simp only [List.length_cons, List.length_nil]
  rw [if_neg (by omega)]

/-- Iterated 0.01 s steps keep the inputs and, below capacity, add one
buffer record per step. -/
lemma iterate_step_props (n : ℕ) (s : SimState)
    (h : s.buf.time.length + n ≤ 2000) :
    ((fun t => step t 0.01)^[n] s).pressureFL = s.pressureFL ∧
    ((fun t => step t 0.01)^[n] s).pressureFR = s.pressureFR ∧
    ((fun t => step t 0.01)^[n] s).pressureRL = s.pressureRL ∧
    ((fun t => step t 0.01)^[n] s).pressureRR = s.pressureRR ∧
    ((fun t => step t 0.01)^[n] s).steerInput = s.steerInput ∧
    ((fun t => step t 0.01)^[n] s).buf.time.length =
      s.buf.time.length + n := by
  induction n generalizing s with
  | zero => exact ⟨rfl, rfl, rfl, rfl, rfl, rfl⟩
  | succ n ih =>
    rw [Function.iterate_succ_apply]
    have hlt : s.buf.time.length < 2000 := by omega
    have hstep := step_buflen_lt s hlt
    obtain ⟨a1, a2, a3, a4, a5, a6⟩ := ih (step s 0.01) (by omega)
    obtain ⟨b1, b2, b3, b4, b5⟩ := step_keeps_inputs s 0.01
    refine ⟨a1.trans b1, a2.trans b2, a3.trans b3, a4.trans b4,
      a5.trans b5, ?_⟩
    rw [a6, hstep]
    omega

end VehicleSim

namespace SweepAnalyzer

open VehicleSim

/-- One sweep point leaves the four wheel pressures at the swept value,
the steering at the 3-degree excitation, and 250 records (150 settle plus
100 sample steps) in the buffer. -/
lemma sweepPoint_props (s : SimState) (P : ℝ) :
    (sweepPoint s P).pressureFL = P ∧ (sweepPoint s P).pressureFR = P ∧
    (sweepPoint s P).pressureRL = P ∧ (sweepPoint s P).pressureRR = P ∧
    (sweepPoint s P).steerInput = 3 ∧
    (sweepPoint s P).buf.time.length = 250 := by
  unfold sweepPoint
  rw [← Function.iterate_add_apply]
  have h := iterate_step_props (100 + 150)
    { resetBuffers
        { s with pressureFL := P, pressureFR := P,
                 pressureRL := P, pressureRR := P } with
      steerInput := 3 }
    (by
      show List.length ([] : List ℝ) + (100 + 150) ≤ 2000
      simp)
  obtain ⟨a1, a2, a3, a4, a5, a6⟩ := h
  refine ⟨a1, a2, a3, a4, a5, ?_⟩
  rw [a6]
  show List.length ([] : List ℝ) + (100 + 150) = 250
  simp

/-- C10: after a full `runPressureSweep`, the simulator is left at the
last swept point — all four wheel pressures equal 40 psi, the steering
input is still the 3-degree sweep excitation, and the buffer holds the
250 records of the last sweep point (it is neither restored to the
pre-sweep inputs nor reset). -/
theorem sweep_leaves_final_state (s : SimState) :
    (sweepFinalState s).pressureFL = 40 ∧
    (sweepFinalState s).pressureFR = 40 ∧
    (sweepFinalState s).pressureRL = 40 ∧
    (sweepFinalState s).pressureRR = 40 ∧
    (sweepFinalState s).steerInput = 3 ∧
    (sweepFinalState s).buf.time.length = 250 := by
  have e : sweepFinalState s =
      sweepPoint
        (List.foldl sweepPoint s [20, 22, 24, 26, 28, 30, 32, 34, 36, 38])
        40 := by
    simp only [sweepFinalState, sweepPressures, List.foldl_cons,
      List.foldl_nil]
  rw [e]
  exact sweepPoint_props _ 40

/-- Expansion of a mean-centered product sum over a point list. -/
lemma sum_centered_prod (pts : List (ℝ × ℝ)) (a b : ℝ) :
    (pts.map fun p => (p.1 - a) * (p.2 - b)).sum =
      sumXY pts - b * sumX pts - a * sumY pts +
        (pts.length : ℝ) * (a * b) := by
  induction pts with
  | nil => simp [sumXY, sumX, sumY]
  | cons q tl ih =>
    simp only [List.map_cons, List.sum_cons, sumXY, sumX, sumY,
      List.length_cons] at ih ⊢
    push_cast
    rw [ih]
    ring

/-- Expansion of a mean-centered square sum over a point list. -/
lemma sum_centered_sq (pts : List (ℝ × ℝ)) (a : ℝ) :
    (pts.map fun p => (p.1 - a) ^ 2).sum =
      sumXX pts - 2 * a * sumX pts + (pts.length : ℝ) * a ^ 2 := by
  induction pts with
  | nil => simp [sumXX, sumX]
  | cons q tl ih =>
    simp only [List.map_cons, List.sum_cons, sumXX, sumX,
      List.length_cons] at ih ⊢
    push_cast
    rw [ih]
    ring

/-- Cancelling a common nonzero denominator inside a quotient. -/
lemma div_div_div_same (a b c : ℝ) (hc : c ≠ 0) :
    (a / c) / (b / c) = a / b := by
  rcases eq_or_ne b 0 with hb | hb
  · rw [hb]
    simp
  · field_simp

/-- C8: the cornering-stiffness estimate of the sweep analyzer equals the
ordinary least-squares slope (mean-centered textbook form) of lateral
force against slip angle converted to radians, computed over exactly the
samples with `|slip| < 3` degrees, and equals exactly 0 whenever fewer
than 4 such qualifying samples exist. -/
theorem CEst_eq_olsSlope (slip Fy : List ℝ) :
    CEst slip Fy =
      if 4 ≤ (linearPoints slip Fy).length then
        olsSlope (linearPoints slip Fy)
      else 0 := by
  unfold CEst olsSlope
  by_cases h : 4 ≤ (linearPoints slip Fy).length
  · rw [if_pos h, if_pos h]
    have hn : ((linearPoints slip Fy).length : ℝ) ≠ 0 := by
      have hpos : 0 < (linearPoints slip Fy).length :=
        lt_of_lt_of_le (by norm_num) h
      exact_mod_cast hpos.ne'
    rw [sum_centered_prod (linearPoints slip Fy)
        (sumX (linearPoints slip Fy) / ((linearPoints slip Fy).length : ℝ))
        (sumY (linearPoints slip Fy) /
          ((linearPoints slip Fy).length : ℝ)),
      sum_centered_sq (linearPoints slip Fy)
        (sumX (linearPoints slip Fy) /
          ((linearPoints slip Fy).length : ℝ))]
    rw [show sumXY (linearPoints slip Fy) -
        sumY (linearPoints slip Fy) /
            ((linearPoints slip Fy).length : ℝ) *
          sumX (linearPoints slip Fy) -
        sumX (linearPoints slip Fy) /
            ((linearPoints slip Fy).length : ℝ) *
          sumY (linearPoints slip Fy) +
        ((linearPoints slip Fy).length : ℝ) *
          (sumX (linearPoints slip Fy) /
              ((linearPoints slip Fy).length : ℝ) *
            (sumY (linearPoints slip Fy) /
              ((linearPoints slip Fy).length : ℝ))) =
        (((linearPoints slip Fy).length : ℝ) *
            sumXY (linearPoints slip Fy) -
          sumX (linearPoints slip Fy) * sumY (linearPoints slip Fy)) /
          ((linearPoints slip Fy).length : ℝ) from by
      field_simp
      ring]
    rw [show sumXX (linearPoints slip Fy) -
        2 * (sumX (linearPoints slip Fy) /
            ((linearPoints slip Fy).length : ℝ)) *
          sumX (linearPoints slip Fy) +
        ((linearPoints slip Fy).length : ℝ) *
          (sumX (linearPoints slip Fy) /
            ((linearPoints slip Fy).length : ℝ)) ^ 2 =
        (((linearPoints slip Fy).length : ℝ) *
            sumXX (linearPoints slip Fy) -
          sumX (linearPoints slip Fy) * sumX (linearPoints slip Fy)) /
          ((linearPoints slip Fy).length : ℝ) from by
      field_simp
      ring]
    exact (div_div_div_same _ _ _ hn).symm
  · rw [if_neg h, if_neg h]

end SweepAnalyzer

end
